import Mathlib

/-!
Verification of the uVkCompute command-buffer recorder
(src/uvkc/vulkan/command_buffer.cc) against its design specification.

The C++ component is a thin, stateless wrapper around a fixed table of
native Vulkan entry points (DynamicSymbols).  We embed it shallowly:

* every native entry point invocation is reified as a `NativeCall` value,
  so a method's effect is the list of native calls it issues, in order;
* the native result codes returned by `vkBeginCommandBuffer`,
  `vkEndCommandBuffer` and `vkResetCommandBuffer` are supplied by an
  oracle stored in `DynamicSymbols`, which also threads the native
  layer's hidden per-buffer lifecycle state;
* `VkResultToStatus` (from the repository's status_util, not part of the
  sources under verification) is modelled from the spec's error taxonomy.

A recording session is then a fold of operation steps over a `RecState`
that accumulates the recorded command stream and the statuses returned
by the fallible lifecycle calls.
-/

namespace uvkc
namespace vulkan

/-- Vulkan result code; VK_SUCCESS is 0, failures are other codes. -/
abbrev VkResult := Int

def VK_SUCCESS : VkResult := 0

/-- Native error code used by the conforming-native model for calls made
in an invalid lifecycle state. -/
def VK_ERROR_VALIDATION_FAILED_EXT : VkResult := -1000011001

def VK_STRUCTURE_TYPE_COMMAND_BUFFER_BEGIN_INFO : Nat := 42

def VK_COMMAND_BUFFER_USAGE_ONE_TIME_SUBMIT_BIT : Nat := 1

def VK_COMMAND_BUFFER_RESET_RELEASE_RESOURCES_BIT : Nat := 1

def VK_PIPELINE_BIND_POINT_COMPUTE : Nat := 1

/-- External buffer entity: a native VkBuffer handle plus its byte
length (the length is never consulted by the recorder). -/
structure Buffer where
  buffer : Nat
  size_in_bytes : Nat
deriving DecidableEq, Repr

/-- External pipeline entity: compute pipeline handle plus its
resource-layout (VkPipelineLayout) handle. -/
structure Pipeline where
  pipeline : Nat
  pipeline_layout : Nat
deriving DecidableEq, Repr

/-- A descriptor set bound at a binding-slot index
(uvkc::vulkan::CommandBuffer::BoundDescriptorSet). -/
structure BoundDescriptorSet where
  index : Nat
  set : Nat
deriving DecidableEq, Repr

/-- External timestamp query pool: native handle plus its fixed slot
count, as reported by its query_count() accessor. -/
structure TimestampQueryPool where
  query_pool : Nat
  query_count : Nat
deriving DecidableEq, Repr

/-- VkBufferCopy region, as filled in by CommandBuffer::CopyBuffer. -/
structure VkBufferCopy where
  srcOffset : Nat
  dstOffset : Nat
  size : Nat
deriving DecidableEq, Repr

/-- VkCommandBufferBeginInfo as filled in by CommandBuffer::Begin.
Null pointers (pNext, pInheritanceInfo) are modelled as `none`. -/
structure VkCommandBufferBeginInfo where
  sType : Nat
  pNext : Option Nat
  flags : Nat
  pInheritanceInfo : Option Nat
deriving DecidableEq, Repr

/-- One invocation of a native Vulkan entry point, with the arguments
the recorder passes.  C-style (count, pointer) array arguments are
modelled as lists, the count being the list length. -/
inductive NativeCall where
  | vkBeginCommandBuffer (commandBuffer : Nat) (beginInfo : VkCommandBufferBeginInfo)
  | vkEndCommandBuffer (commandBuffer : Nat)
  | vkResetCommandBuffer (commandBuffer : Nat) (flags : Nat)
  | vkCmdCopyBuffer (commandBuffer srcBuffer dstBuffer : Nat)
      (regions : List VkBufferCopy)
  | vkCmdBindPipeline (commandBuffer pipelineBindPoint pipeline : Nat)
  | vkCmdBindDescriptorSets (commandBuffer pipelineBindPoint layout firstSet : Nat)
      (descriptorSets : List Nat) (dynamicOffsets : List Nat)
  | vkCmdResetQueryPool (commandBuffer queryPool firstQuery queryCount : Nat)
  | vkCmdWriteTimestamp (commandBuffer pipelineStage queryPool queryIndex : Nat)
  | vkCmdDispatch (commandBuffer x y z : Nat)
deriving DecidableEq, Repr

/-- Modelled from the spec: the native layer's command-buffer lifecycle
(Initial -> Recording -> Executable), the hidden driver-side state the
recorder itself never tracks.  The native implementation is external to
the sources under verification. -/
inductive NativeLifecycle where
  | initialState
  | recordingState
  | executableState
deriving DecidableEq, Repr

/-- Modelled from the spec: the status type returned by Begin/End/Reset.
The repository's status_util (absl::Status plus VkResultToStatus) is not
among the sources under verification; per the spec's error taxonomy
there is a single NativeApiError kind carrying the native code, besides
success. -/
inductive Status where
  | ok
  | nativeApiError (code : VkResult)
deriving DecidableEq, Repr

/-- Modelled from the spec: VkResultToStatus (status_util) maps the
native success code to an ok status and every other native code to a
NativeApiError carrying that code. -/
def VkResultToStatus (r : VkResult) : Status :=
  if r = VK_SUCCESS then Status.ok else Status.nativeApiError r

/-- The injected native entry-point table.  Issuing a call is captured
by returning the `NativeCall` values from each method; the table itself
supplies only the native result code of the fallible calls, as a
function of the call and of the native layer's hidden lifecycle state
(which the call may advance). -/
structure DynamicSymbols where
  vkResult : NativeCall → NativeLifecycle → VkResult × NativeLifecycle

/-- uvkc::vulkan::CommandBuffer: a non-owning wrapper holding the native
recording handle, the owning device and the entry-point table, exactly
the three members set by the constructor. -/
structure CommandBuffer where
  command_buffer_ : Nat
  device_ : Nat
  symbols_ : DynamicSymbols

/-- The C++ constructor CommandBuffer(device, command_buffer, symbols):
stores the three references and nothing else. -/
def CommandBuffer.construct (device : Nat) (command_buffer : Nat)
    (symbols : DynamicSymbols) : CommandBuffer :=
  { command_buffer_ := command_buffer, device_ := device, symbols_ := symbols }

/-- Accessor CommandBuffer::command_buffer(): returns the stored native
handle. -/
def CommandBuffer.command_buffer (cb : CommandBuffer) : Nat :=
  cb.command_buffer_

/-- CommandBuffer::Begin(): fills a VkCommandBufferBeginInfo with the
one-time-submit usage flag and null pNext/pInheritanceInfo, invokes
vkBeginCommandBuffer and translates its result.  Returns the translated
status, the advanced native lifecycle state and the issued call. -/
def CommandBuffer.Begin (cb : CommandBuffer) (s : NativeLifecycle) :
    Status × NativeLifecycle × List NativeCall :=
  let begin_info : VkCommandBufferBeginInfo :=
    { sType := VK_STRUCTURE_TYPE_COMMAND_BUFFER_BEGIN_INFO
      pNext := none
      flags := VK_COMMAND_BUFFER_USAGE_ONE_TIME_SUBMIT_BIT
      pInheritanceInfo := none }
  let call := NativeCall.vkBeginCommandBuffer cb.command_buffer_ begin_info
  let res := cb.symbols_.vkResult call s
  (VkResultToStatus res.1, res.2, [call])

/-- CommandBuffer::End(): invokes vkEndCommandBuffer and translates its
result. -/
def CommandBuffer.End (cb : CommandBuffer) (s : NativeLifecycle) :
    Status × NativeLifecycle × List NativeCall :=
  let call := NativeCall.vkEndCommandBuffer cb.command_buffer_
  let res := cb.symbols_.vkResult call s
  (VkResultToStatus res.1, res.2, [call])

/-- CommandBuffer::Reset(): invokes vkResetCommandBuffer with flags 0
(resources deliberately not released) and translates its result. -/
def CommandBuffer.Reset (cb : CommandBuffer) (s : NativeLifecycle) :
    Status × NativeLifecycle × List NativeCall :=
  let call := NativeCall.vkResetCommandBuffer cb.command_buffer_ 0
  let res := cb.symbols_.vkResult call s
  (VkResultToStatus res.1, res.2, [call])

/-- CommandBuffer::CopyBuffer(src, srcOffset, dst, dstOffset, length):
fills a single VkBufferCopy region from the arguments and issues one
vkCmdCopyBuffer with regionCount 1.  Void in C++: no status. -/
def CommandBuffer.CopyBuffer (cb : CommandBuffer) (src_buffer : Buffer)
    (src_offset : Nat) (dst_buffer : Buffer) (dst_offset : Nat)
    (length : Nat) : List NativeCall :=
  let region : VkBufferCopy :=
    { srcOffset := src_offset, dstOffset := dst_offset, size := length }
  [NativeCall.vkCmdCopyBuffer cb.command_buffer_ src_buffer.buffer
    dst_buffer.buffer [region]]

/-- The for-loop body of BindPipelineAndDescriptorSets: one
vkCmdBindDescriptorSets per span entry, in span order, each with
descriptorSetCount 1, firstSet the entry's index, the pipeline's
layout, and no dynamic offsets. -/
def bindDescriptorSetsLoop (cb : CommandBuffer) (pipeline : Pipeline) :
    List BoundDescriptorSet → List NativeCall
  | [] => []
  | descriptor_set :: rest =>
      NativeCall.vkCmdBindDescriptorSets cb.command_buffer_
          VK_PIPELINE_BIND_POINT_COMPUTE pipeline.pipeline_layout
          descriptor_set.index [descriptor_set.set] []
        :: bindDescriptorSetsLoop cb pipeline rest

/-- CommandBuffer::BindPipelineAndDescriptorSets(pipeline, boundSets):
one vkCmdBindPipeline at the compute bind point, then the loop over the
span.  Void in C++: no status. -/
def CommandBuffer.BindPipelineAndDescriptorSets (cb : CommandBuffer)
    (pipeline : Pipeline)
    (bound_descriptor_sets : List BoundDescriptorSet) : List NativeCall :=
  NativeCall.vkCmdBindPipeline cb.command_buffer_
      VK_PIPELINE_BIND_POINT_COMPUTE pipeline.pipeline
    :: bindDescriptorSetsLoop cb pipeline bound_descriptor_sets

/-- CommandBuffer::ResetQueryPool(pool): one vkCmdResetQueryPool with
firstQuery 0 and queryCount the pool's reported slot count. -/
def CommandBuffer.ResetQueryPool (cb : CommandBuffer)
    (query_pool : TimestampQueryPool) : List NativeCall :=
  [NativeCall.vkCmdResetQueryPool cb.command_buffer_ query_pool.query_pool
    0 query_pool.query_count]

/-- CommandBuffer::WriteTimestamp(pool, stage, index): one
vkCmdWriteTimestamp. -/
def CommandBuffer.WriteTimestamp (cb : CommandBuffer)
    (query_pool : TimestampQueryPool) (pipeline_stage : Nat)
    (query_index : Nat) : List NativeCall :=
  [NativeCall.vkCmdWriteTimestamp cb.command_buffer_ pipeline_stage
    query_pool.query_pool query_index]

/-- CommandBuffer::Dispatch(x, y, z): one vkCmdDispatch. -/
def CommandBuffer.Dispatch (cb : CommandBuffer) (x y z : Nat) :
    List NativeCall :=
  [NativeCall.vkCmdDispatch cb.command_buffer_ x y z]

/-- A command-issuing call (the void methods usable between Begin and
End), with its arguments. -/
inductive Cmd where
  | copyBuffer (src : Buffer) (srcOffset : Nat) (dst : Buffer)
      (dstOffset : Nat) (length : Nat)
  | bindPipelineAndDescriptorSets (pipeline : Pipeline)
      (sets : List BoundDescriptorSet)
  | dispatch (x y z : Nat)
  | resetQueryPool (pool : TimestampQueryPool)
  | writeTimestamp (pool : TimestampQueryPool) (stage : Nat) (index : Nat)
deriving DecidableEq, Repr

/-- The native calls a command-issuing method sends to the entry-point
table, obtained by running the corresponding method. -/
def Cmd.emit (cb : CommandBuffer) : Cmd → List NativeCall
  | .copyBuffer src srcOffset dst dstOffset length =>
      cb.CopyBuffer src srcOffset dst dstOffset length
  | .bindPipelineAndDescriptorSets pipeline sets =>
      cb.BindPipelineAndDescriptorSets pipeline sets
  | .dispatch x y z => cb.Dispatch x y z
  | .resetQueryPool pool => cb.ResetQueryPool pool
  | .writeTimestamp pool stage index => cb.WriteTimestamp pool stage index

/-- Any public operation of the recorder: a lifecycle call or a
command-issuing call. -/
inductive Op where
  | beginOp
  | endOp
  | resetOp
  | cmd (c : Cmd)
deriving DecidableEq, Repr

def Cmd.toOp (c : Cmd) : Op := Op.cmd c

/-- State of one recording session: the recorder object, the native
layer's hidden lifecycle state, the recorded command stream (every
native call issued so far, oldest first) and the statuses returned by
the fallible lifecycle calls, in call order. -/
structure RecState where
  cb : CommandBuffer
  native : NativeLifecycle
  stream : List NativeCall
  statuses : List Status

def initialRecState (cb : CommandBuffer) (n : NativeLifecycle) : RecState :=
  { cb := cb, native := n, stream := [], statuses := [] }

/-- Execute one public operation: run the method on the current
recorder, append the issued native calls to the stream, and record the
returned status for the fallible calls.  The recorder object itself is
carried through unchanged, as no C++ method assigns to any member. -/
def stepOp (s : RecState) : Op → RecState
  | .beginOp =>
      let r := s.cb.Begin s.native
      { s with native := r.2.1, stream := s.stream ++ r.2.2,
               statuses := s.statuses ++ [r.1] }
  | .endOp =>
      let r := s.cb.End s.native
      { s with native := r.2.1, stream := s.stream ++ r.2.2,
               statuses := s.statuses ++ [r.1] }
  | .resetOp =>
      let r := s.cb.Reset s.native
      { s with native := r.2.1, stream := s.stream ++ r.2.2,
               statuses := s.statuses ++ [r.1] }
  | .cmd c =>
      { s with stream := s.stream ++ Cmd.emit s.cb c }

def runOps : RecState → List Op → RecState
  | s, [] => s
  | s, op :: rest => runOps (stepOp s op) rest

/-- One full recording: Begin, then the command-issuing calls, then
End. -/
def recordSession (cb : CommandBuffer) (n : NativeLifecycle)
    (cmds : List Cmd) : RecState :=
  runOps (initialRecState cb n)
    ([Op.beginOp] ++ cmds.map Cmd.toOp ++ [Op.endOp])

/-- Modelled from the spec: a conforming native implementation of the
three fallible entry points over the lifecycle state machine
Initial -> (begin) -> Recording -> (end) -> Executable -> (reset) ->
Initial.  Begin is accepted from Initial or Executable only; End from
Recording only; Reset always succeeds; command recording calls return
no result and leave the lifecycle state unchanged here. -/
def conformingSymbols : DynamicSymbols where
  vkResult c s :=
    match c with
    | .vkBeginCommandBuffer _ _ =>
        match s with
        | .initialState => (VK_SUCCESS, .recordingState)
        | .executableState => (VK_SUCCESS, .recordingState)
        | .recordingState => (VK_ERROR_VALIDATION_FAILED_EXT, .recordingState)
    | .vkEndCommandBuffer _ =>
        match s with
        | .recordingState => (VK_SUCCESS, .executableState)
        | _ => (VK_ERROR_VALIDATION_FAILED_EXT, s)
    | .vkResetCommandBuffer _ _ => (VK_SUCCESS, .initialState)
    | _ => (VK_SUCCESS, s)

/-- The begin info Begin hands to the native layer, for stating
theorems about it. -/
def oneTimeSubmitBeginInfo : VkCommandBufferBeginInfo :=
  { sType := VK_STRUCTURE_TYPE_COMMAND_BUFFER_BEGIN_INFO
    pNext := none
    flags := VK_COMMAND_BUFFER_USAGE_ONE_TIME_SUBMIT_BIT
    pInheritanceInfo := none }

/-- The native calls any public operation sends to the entry-point
table. -/
def Op.emit (cb : CommandBuffer) : Op → List NativeCall
  | .beginOp => [NativeCall.vkBeginCommandBuffer cb.command_buffer_ oneTimeSubmitBeginInfo]
  | .endOp => [NativeCall.vkEndCommandBuffer cb.command_buffer_]
  | .resetOp => [NativeCall.vkResetCommandBuffer cb.command_buffer_ 0]
  | .cmd c => Cmd.emit cb c

/-- Whether the reset flags request releasing the backing resources. -/
def releasesResources (flags : Nat) : Bool :=
  (flags &&& VK_COMMAND_BUFFER_RESET_RELEASE_RESOURCES_BIT) != 0

lemma stepOp_cb (s : RecState) (op : Op) : (stepOp s op).cb = s.cb := by
  cases op <;> rfl

lemma stepOp_stream (s : RecState) (op : Op) :
    (stepOp s op).stream = s.stream ++ Op.emit s.cb op := by
  cases op <;> rfl

lemma stepOp_statuses_cmd (s : RecState) (c : Cmd) :
    (stepOp s (Op.cmd c)).statuses = s.statuses := rfl

lemma stepOp_native_cmd (s : RecState) (c : Cmd) :
    (stepOp s (Op.cmd c)).native = s.native := rfl

lemma runOps_cb (s : RecState) (ops : List Op) :
    (runOps s ops).cb = s.cb := by
  induction ops generalizing s with
  | nil => rfl
  | cons op rest ih => rw [runOps, ih, stepOp_cb]

lemma runOps_append (s : RecState) (a b : List Op) :
    runOps s (a ++ b) = runOps (runOps s a) b := by
  induction a generalizing s with
  | nil => rfl
  | cons op rest ih => rw [List.cons_append, runOps, runOps, ih]

lemma runOps_stream (s : RecState) (ops : List Op) :
    (runOps s ops).stream = s.stream ++ ops.flatMap (Op.emit s.cb) := by
  induction ops generalizing s with
  | nil => simp [runOps]
  | cons op rest ih =>
      rw [runOps, ih, stepOp_cb, stepOp_stream, List.flatMap_cons,
        List.append_assoc]

lemma runOps_statuses_cmds (s : RecState) (cmds : List Cmd) :
    (runOps s (cmds.map Cmd.toOp)).statuses = s.statuses := by
  induction cmds generalizing s with
  | nil => rfl
  | cons c rest ih =>
      rw [List.map_cons, runOps, ih]
      exact stepOp_statuses_cmd s c

lemma bind_map_toOp (cb : CommandBuffer) (cmds : List Cmd) :
    (cmds.map Cmd.toOp).flatMap (Op.emit cb) = cmds.flatMap (Cmd.emit cb) := by
  induction cmds with
  | nil => rfl
  | cons c rest ih =>
      rw [List.map_cons, List.flatMap_cons, List.flatMap_cons, ih]
      rfl

lemma bindDescriptorSetsLoop_eq_map (cb : CommandBuffer) (p : Pipeline)
    (sets : List BoundDescriptorSet) :
    bindDescriptorSetsLoop cb p sets =
      sets.map (fun descriptor_set =>
        NativeCall.vkCmdBindDescriptorSets cb.command_buffer_
          VK_PIPELINE_BIND_POINT_COMPUTE p.pipeline_layout
          descriptor_set.index [descriptor_set.set] []) := by
  induction sets with
  | nil => rfl
  | cons ds rest ih => rw [bindDescriptorSetsLoop, ih, List.map_cons]

/-- Claim C1: for every session Begin, then any command-issuing calls,
then End, the recorded command stream holds the begin call, then each
issued command's native calls in exactly the order the methods were
called (program order), then the end call. -/
theorem program_order_of_recorded_stream (cb : CommandBuffer)
    (n : NativeLifecycle) (cmds : List Cmd) :
    (recordSession cb n cmds).stream =
      NativeCall.vkBeginCommandBuffer cb.command_buffer_ oneTimeSubmitBeginInfo
        :: (cmds.flatMap (Cmd.emit cb)
            ++ [NativeCall.vkEndCommandBuffer cb.command_buffer_]) := by
  rw [recordSession, runOps_stream]
  simp [initialRecState, Op.emit, bind_map_toOp]

/-- Claim C2: Begin, End and Reset each return exactly the translation
of the underlying native call's result code, where the translation is
success exactly on the native success code and otherwise a
NativeApiError carrying the code; command-issuing operations produce no
status at all. -/
theorem lifecycle_status_translation (cb : CommandBuffer)
    (s : NativeLifecycle) :
    (cb.Begin s).1 = VkResultToStatus
        (cb.symbols_.vkResult
          (NativeCall.vkBeginCommandBuffer cb.command_buffer_
            oneTimeSubmitBeginInfo) s).1
    ∧ (cb.End s).1 = VkResultToStatus
        (cb.symbols_.vkResult
          (NativeCall.vkEndCommandBuffer cb.command_buffer_) s).1
    ∧ (cb.Reset s).1 = VkResultToStatus
        (cb.symbols_.vkResult
          (NativeCall.vkResetCommandBuffer cb.command_buffer_ 0) s).1
    ∧ (∀ r : VkResult,
        (VkResultToStatus r = Status.ok ↔ r = VK_SUCCESS)
        ∧ VkResultToStatus r =
            if r = VK_SUCCESS then Status.ok else Status.nativeApiError r)
    ∧ ∀ cmds : List Cmd,
        (runOps (initialRecState cb s) (cmds.map Cmd.toOp)).statuses = [] := by
  refine ⟨rfl, rfl, rfl, ?_, ?_⟩
  · intro r
    refine ⟨?_, rfl⟩
    unfold VkResultToStatus
    by_cases h : r = VK_SUCCESS <;> simp [h]
  · intro cmds
    rw [runOps_statuses_cmds]
    rfl

/-- Claim C3: BindPipelineAndDescriptorSets issues exactly one
compute-bind-point pipeline bind, then one descriptor-set bind per
entry in list order, each binding a single set at the entry's index
with the pipeline's resource-layout handle. -/
theorem bind_pipeline_then_descriptor_sets_in_order (cb : CommandBuffer)
    (pipeline : Pipeline) (sets : List BoundDescriptorSet) :
    cb.BindPipelineAndDescriptorSets pipeline sets =
      NativeCall.vkCmdBindPipeline cb.command_buffer_
          VK_PIPELINE_BIND_POINT_COMPUTE pipeline.pipeline
        :: sets.map (fun descriptor_set =>
            NativeCall.vkCmdBindDescriptorSets cb.command_buffer_
              VK_PIPELINE_BIND_POINT_COMPUTE pipeline.pipeline_layout
              descriptor_set.index [descriptor_set.set] []) := by
  rw [CommandBuffer.BindPipelineAndDescriptorSets,
    bindDescriptorSetsLoop_eq_map]

/-- Claim C4: Reset issues the native reset with flags 0, which does
not carry the release-resources bit: the backing resources are retained
across every Reset. -/
theorem reset_retains_backing_resources (cb : CommandBuffer)
    (s : NativeLifecycle) :
    (cb.Reset s).2.2 = [NativeCall.vkResetCommandBuffer cb.command_buffer_ 0]
    ∧ releasesResources 0 = false :=
  ⟨rfl, rfl⟩

/-- Claim C5: Begin always passes a begin info carrying exactly the
one-time-submit usage flag and no inheritance info. -/
theorem begin_declares_one_time_submit (cb : CommandBuffer)
    (s : NativeLifecycle) :
    (cb.Begin s).2.2 =
        [NativeCall.vkBeginCommandBuffer cb.command_buffer_
          oneTimeSubmitBeginInfo]
    ∧ oneTimeSubmitBeginInfo.flags = VK_COMMAND_BUFFER_USAGE_ONE_TIME_SUBMIT_BIT
    ∧ oneTimeSubmitBeginInfo.pInheritanceInfo = none :=
  ⟨rfl, rfl, rfl⟩

/-- Claim C6: CopyBuffer issues exactly one copy command with a single
region equal to the given offsets and length, for every source and
destination buffer whatever their sizes (no bounds checking), and
produces no status. -/
theorem copy_buffer_single_region_no_bounds_check (cb : CommandBuffer)
    (src : Buffer) (src_offset : Nat) (dst : Buffer)
    (dst_offset length : Nat) :
    cb.CopyBuffer src src_offset dst dst_offset length =
      [NativeCall.vkCmdCopyBuffer cb.command_buffer_ src.buffer dst.buffer
        [{ srcOffset := src_offset, dstOffset := dst_offset, size := length }]]
    ∧ ∀ n m : Nat,
        cb.CopyBuffer { buffer := src.buffer, size_in_bytes := n } src_offset
            { buffer := dst.buffer, size_in_bytes := m } dst_offset length =
          cb.CopyBuffer src src_offset dst dst_offset length :=
  ⟨rfl, fun _ _ => rfl⟩

/-- Claim C7: ResetQueryPool issues exactly one reset command starting
at slot 0 and covering the pool's full reported slot count. -/
theorem reset_query_pool_covers_full_slot_range (cb : CommandBuffer)
    (pool : TimestampQueryPool) :
    cb.ResetQueryPool pool =
      [NativeCall.vkCmdResetQueryPool cb.command_buffer_ pool.query_pool 0
        pool.query_count] :=
  rfl

/-- Claim C8: against the conforming native lifecycle model, a second
Begin without an intervening End or Reset returns a NativeApiError
carrying the native error code, not success. -/
theorem begin_twice_yields_native_api_error (device handle : Nat) :
    (runOps (initialRecState
        (CommandBuffer.construct device handle conformingSymbols)
        NativeLifecycle.initialState) [Op.beginOp, Op.beginOp]).statuses =
      [Status.ok, Status.nativeApiError VK_ERROR_VALIDATION_FAILED_EXT]
    ∧ Status.nativeApiError VK_ERROR_VALIDATION_FAILED_EXT ≠ Status.ok :=
  ⟨rfl, by decide⟩

/-- Claim C9: the recorder holds exactly the native handle supplied at
construction; no operation ever replaces it, and the command_buffer()
accessor always returns it. -/
theorem recording_handle_fixed_at_construction (device handle : Nat)
    (symbols : DynamicSymbols) (n : NativeLifecycle) (ops : List Op) :
    ((runOps (initialRecState (CommandBuffer.construct device handle symbols)
        n) ops).cb).command_buffer = handle
    ∧ (CommandBuffer.construct device handle symbols).command_buffer = handle
    ∧ ∀ (s : RecState) (op : Op), (stepOp s op).cb = s.cb := by
  refine ⟨?_, rfl, stepOp_cb⟩
  rw [runOps_cb]
  rfl

/-- Claim C10: the recorder tracks no lifecycle state of its own: every
operation appends its native calls unconditionally, independent of the
prior stream or native state; in particular Dispatch with no prior
Begin still issues the native dispatch call, and surfaces no status. -/
theorem no_lifecycle_state_unconditional_forwarding (s : RecState)
    (x y z : Nat) :
    (stepOp s (Op.cmd (Cmd.dispatch x y z))).stream =
        s.stream ++ [NativeCall.vkCmdDispatch s.cb.command_buffer_ x y z]
    ∧ (stepOp s (Op.cmd (Cmd.dispatch x y z))).statuses = s.statuses
    ∧ (∀ op : Op, (stepOp s op).stream = s.stream ++ Op.emit s.cb op)
    ∧ ∀ cb : CommandBuffer,
        (stepOp (initialRecState cb s.native)
            (Op.cmd (Cmd.dispatch x y z))).stream =
          [NativeCall.vkCmdDispatch cb.command_buffer_ x y z] :=
  ⟨rfl, rfl, stepOp_stream s, fun _ => rfl⟩

end vulkan
end uvkc
